import Mathlib

/-!
# Verification of the KMRL fleet-induction optimizer

Shallow embedding of `Optimization_Engine/optimization_engine_v2.py` and
`Optimization_Engine/optimization_engine_v3.py`: the objective/constraint
evaluator (`_evaluate`), the punctuality-score derivation, the problem
construction, and the result-extraction step.  Numeric columns (`float64`
in the source) are modelled as exact rationals; a candidate is a bit-string
(`List Bool`) over the fleet table, matching `vtype=bool` in the problem
definition.
-/

/-- One row of the processed `train_df` table: the FleetUnit record consumed
by the optimizer.  `trainsetId` is the identifier column; the remaining
fields are the columns read by `_evaluate` and the result extraction. -/
structure FleetUnit where
  trainsetId : String
  mileage : ℚ
  job_card_open : Bool
  fitness_certificate_valid : Bool
  punctuality_score : ℚ
  branding_priority_score : ℚ
deriving DecidableEq

/-- `np.sum(x * vals, axis=1)` for one boolean row `x`: the sum of `vals`
over the selected positions. -/
def selMul (x : List Bool) (vals : List ℚ) : ℚ :=
  (List.zipWith (fun b v => if b then v else 0) x vals).sum

/-- `np.sum(x, axis=1)` for one boolean row: the number of selected units. -/
def selCount (x : List Bool) : Nat :=
  x.count true

/-- The module-level constant `N_TO_SELECT = 15` shared by both scripts. -/
def N_TO_SELECT : Nat := 15

/-- `TrainSchedulingProblem._evaluate`, objective part (v2, lines 72–78):
`f1` is the selected-mileage sum; `f2 = 100 - avg_punctuality`, where the
average divides by `safe_divisor` (the selected count, or 1 when nothing is
selected). -/
def evaluateF_v2 (x : List Bool) (df : List FleetUnit) : List ℚ :=
  let f1 := selMul x (df.map (fun u => u.mileage))
  let punctuality_scores := selMul x (df.map (fun u => u.punctuality_score))
  let safe_divisor : ℚ := if selCount x > 0 then (selCount x : ℚ) else 1
  let avg_punctuality := punctuality_scores / safe_divisor
  let f2 := 100 - avg_punctuality
  [f1, f2]

/-- `TrainSchedulingProblemV3._evaluate`, objective part (v3, lines 69–75):
`f1`, `f2` as in v2, plus `f3 = -np.sum(x * branding_priority_score)`. -/
def evaluateF_v3 (x : List Bool) (df : List FleetUnit) : List ℚ :=
  let f1 := selMul x (df.map (fun u => u.mileage))
  let punctuality_scores := selMul x (df.map (fun u => u.punctuality_score))
  let safe_divisor : ℚ := if selCount x > 0 then (selCount x : ℚ) else 1
  let avg_punctuality := punctuality_scores / safe_divisor
  let f2 := 100 - avg_punctuality
  let f3 := -(selMul x (df.map (fun u => u.branding_priority_score)))
  [f1, f2, f3]

/-- Constraint part of `_evaluate`, identical in v2 (lines 80–82) and v3
(lines 76–78): `g1 = (np.sum(x) - N_TO_SELECT)**2`,
`g2 = np.sum(x * job_card_open)`, `g3 = np.sum(x * ~fitness_certificate_valid)`.
The module constant `N_TO_SELECT` appears here as the `target` parameter. -/
def evaluateG (x : List Bool) (df : List FleetUnit) (target : Nat) : List ℚ :=
  let g1 := ((selCount x : ℚ) - (target : ℚ)) ^ 2
  let g2 := selMul x (df.map (fun u => if u.job_card_open then 1 else 0))
  let g3 := selMul x (df.map (fun u => if u.fitness_certificate_valid then 0 else 1))
  [g1, g2, g3]

/-- One whole call of `TrainSchedulingProblem._evaluate` for one candidate
row: it fills `out["F"]` and `out["G"]` from `self.df` and leaves the table
itself untouched; the second component is the table as it stands after the
call. -/
def evaluate_v2 (x : List Bool) (df : List FleetUnit) :
    (List ℚ × List ℚ) × List FleetUnit :=
  ((evaluateF_v2 x df, evaluateG x df N_TO_SELECT), df)

/-- One whole call of `TrainSchedulingProblemV3._evaluate` for one candidate
row, with the table returned unchanged alongside `out["F"]` and `out["G"]`. -/
def evaluate_v3 (x : List Bool) (df : List FleetUnit) :
    (List ℚ × List ℚ) × List FleetUnit :=
  ((evaluateF_v3 x df, evaluateG x df N_TO_SELECT), df)

/-! ## Spec-side formulations

These definitions follow the wording of the specification (§3, §4.1, §4.6)
and are compared against the source-derived definitions above. -/

/-- Spec wording: the values belonging to the selected units, in table
order. -/
def selectedVals (x : List Bool) (vals : List ℚ) : List ℚ :=
  ((x.zip vals).filter (fun p => p.1)).map (fun p => p.2)

/-- Spec wording (§4.1): the mean over the selected units, an empty
selection counting as mean 0. -/
def meanSelected (x : List Bool) (vals : List ℚ) : ℚ :=
  if selCount x = 0 then 0 else (selectedVals x vals).sum / (selCount x : ℚ)

/-- Spec wording (§4.1): the number of selected units whose row satisfies
`p`. -/
def countSelectedWith (x : List Bool) (df : List FleetUnit) (p : FleetUnit → Bool) : Nat :=
  ((x.zip df).filter (fun q => q.1 && p q.2)).length

/-! ## Basic lemmas about the mask arithmetic -/

theorem selMul_nil (vals : List ℚ) : selMul [] vals = 0 := by
  simp [selMul]

theorem selMul_cons (b : Bool) (x : List Bool) (v : ℚ) (vals : List ℚ) :
    selMul (b :: x) (v :: vals) = (if b then v else 0) + selMul x vals := by
  simp [selMul]

theorem selectedVals_cons (b : Bool) (x : List Bool) (v : ℚ) (vals : List ℚ) :
    selectedVals (b :: x) (v :: vals) =
      if b then v :: selectedVals x vals else selectedVals x vals := by
  cases b <;> simp [selectedVals]

/-- `np.sum(x * vals)` is the sum of the values of the selected units. -/
theorem selMul_eq_sum_selectedVals (x : List Bool) (vals : List ℚ) :
    selMul x vals = (selectedVals x vals).sum := by
  induction x generalizing vals with
  | nil => simp [selMul, selectedVals]
  | cons b xs ih =>
    cases vals with
    | nil => simp [selMul, selectedVals]
    | cons v vs =>
      rw [selMul_cons, selectedVals_cons, ih]
      cases b <;> simp

/-- A mask with selected count 0 is all-`false`, so every masked sum is 0. -/
theorem selMul_eq_zero_of_selCount_zero (x : List Bool) (vals : List ℚ)
    (h : selCount x = 0) : selMul x vals = 0 := by
  induction x generalizing vals with
  | nil => simp [selMul]
  | cons b xs ih =>
    have hb : b = false := by
      cases b with
      | false => rfl
      | true => simp [selCount, List.count_cons] at h
    subst hb
    cases vals with
    | nil => simp [selMul]
    | cons v vs =>
      rw [selMul_cons]
      have hxs : selCount xs = 0 := by
        simpa [selCount, List.count_cons] using h
      simp [ih vs hxs]

/-- Masked sum of a 0/1 indicator column counts the selected units that
satisfy the predicate. -/
theorem selMul_indicator (x : List Bool) (df : List FleetUnit) (p : FleetUnit → Bool) :
    selMul x (df.map (fun u => if p u then (1 : ℚ) else 0)) =
      (countSelectedWith x df p : ℚ) := by
  induction x generalizing df with
  | nil => simp [selMul, countSelectedWith]
  | cons b xs ih =>
    cases df with
    | nil => simp [selMul, countSelectedWith]
    | cons u us =>
      rw [List.map_cons, selMul_cons, ih us]
      cases hb : b <;> cases hp : p u <;>
        simp [countSelectedWith, hb, hp, List.zip, List.filter, add_comm]

/-! ## Evaluator characterizations (shared helper lemmas) -/

/-- The v2 objective vector, written with the spec-side sum and mean. -/
theorem evaluateF_v2_eq (x : List Bool) (df : List FleetUnit) :
    evaluateF_v2 x df =
      [(selectedVals x (df.map (fun u => u.mileage))).sum,
       100 - meanSelected x (df.map (fun u => u.punctuality_score))] := by
  unfold evaluateF_v2 meanSelected
  by_cases h : selCount x = 0
  · have hm := selMul_eq_zero_of_selCount_zero x (df.map (fun u => u.mileage)) h
    have hp := selMul_eq_zero_of_selCount_zero x (df.map (fun u => u.punctuality_score)) h
    rw [selMul_eq_sum_selectedVals] at hm hp
    simp [h, selMul_eq_sum_selectedVals, hm, hp]
  · have hpos : 0 < selCount x := Nat.pos_of_ne_zero h
    simp [h, hpos, selMul_eq_sum_selectedVals]

/-- The v3 objective vector is the v2 one extended with the negated
selected-branding sum. -/
theorem evaluateF_v3_eq (x : List Bool) (df : List FleetUnit) :
    evaluateF_v3 x df =
      evaluateF_v2 x df ++
        [-(selectedVals x (df.map (fun u => u.branding_priority_score))).sum] := by
  unfold evaluateF_v3 evaluateF_v2
  simp [selMul_eq_sum_selectedVals]

/-- The constraint vector, written with the spec-side counts. -/
theorem evaluateG_eq (x : List Bool) (df : List FleetUnit) (target : Nat) :
    evaluateG x df target =
      [((selCount x : ℚ) - (target : ℚ)) ^ 2,
       (countSelectedWith x df (fun u => u.job_card_open) : ℚ),
       (countSelectedWith x df (fun u => !u.fitness_certificate_valid) : ℚ)] := by
  unfold evaluateG
  have h2 : (fun u : FleetUnit => if u.job_card_open then (1 : ℚ) else 0) =
      (fun u : FleetUnit => if (fun w : FleetUnit => w.job_card_open) u then (1 : ℚ) else 0) := rfl
  have h3 : (fun u : FleetUnit => if u.fitness_certificate_valid then (0 : ℚ) else 1) =
      (fun u : FleetUnit => if (fun w : FleetUnit => !w.fitness_certificate_valid) u then (1 : ℚ) else 0) := by
    funext u
    by_cases hv : u.fitness_certificate_valid <;> simp [hv]
  rw [h2, h3, selMul_indicator, selMul_indicator]

/-- The all-zero candidate selects nothing. -/
theorem selCount_replicate_false (n : Nat) :
    selCount (List.replicate n false) = 0 := by
  induction n with
  | zero => rfl
  | succ n ih =>
    simpa [selCount, List.replicate_succ, List.count_cons] using ih

/-! ## Claim theorems -/

/-- Claim C1: on every candidate bit-string and fleet table, both evaluators
return objective 1 equal to the sum of `mileage` over the selected units and
objective 2 equal to `100 -` the mean `punctuality_score` over the selected
units, an empty selection counting as mean 0; in particular the all-zero
candidate gets objective 2 = 100. -/
theorem C1_evaluator_objectives :
    (∀ (x : List Bool) (df : List FleetUnit),
      evaluateF_v2 x df =
        [(selectedVals x (df.map (fun u => u.mileage))).sum,
         100 - meanSelected x (df.map (fun u => u.punctuality_score))] ∧
      (evaluateF_v3 x df).take 2 = evaluateF_v2 x df) ∧
    (∀ df : List FleetUnit,
      evaluateF_v2 (List.replicate df.length false) df = [0, 100]) := by
  constructor
  · intro x df
    refine ⟨evaluateF_v2_eq x df, ?_⟩
    rw [evaluateF_v3_eq, evaluateF_v2_eq]
    simp
  · intro df
    rw [evaluateF_v2_eq]
    have h0 : selCount (List.replicate df.length false) = 0 :=
      selCount_replicate_false df.length
    have hz :
        selMul (List.replicate df.length false) (df.map (fun u => u.mileage)) = 0 :=
      selMul_eq_zero_of_selCount_zero _ _ h0
    rw [selMul_eq_sum_selectedVals] at hz
    simp [meanSelected, h0, hz]

/-- Claim C2: on every candidate with selected count `s`, the constraint
vector has exactly three entries: `(s - target)^2`, the number of selected
units with an open job card, and the number of selected units with an
invalid fitness certificate. -/
theorem C2_constraint_vector (x : List Bool) (df : List FleetUnit) (target : Nat) :
    evaluateG x df target =
      [((selCount x : ℚ) - (target : ℚ)) ^ 2,
       (countSelectedWith x df (fun u => u.job_card_open) : ℚ),
       (countSelectedWith x df (fun u => !u.fitness_certificate_valid) : ℚ)] ∧
    (evaluateG x df target).length = 3 := by
  refine ⟨evaluateG_eq x df target, ?_⟩
  rw [evaluateG_eq]
  rfl

/-- Claim C5: every entry of the constraint vector is non-negative, for
every candidate, fleet table and target count. -/
theorem C5_constraints_nonneg (x : List Bool) (df : List FleetUnit) (target : Nat)
    (g : ℚ) (hg : g ∈ evaluateG x df target) : 0 ≤ g := by
  rw [evaluateG_eq] at hg
  simp only [List.mem_cons, List.not_mem_nil, or_false] at hg
  rcases hg with h | h | h
  · rw [h]; exact sq_nonneg _
  · rw [h]; exact_mod_cast Nat.zero_le _
  · rw [h]; exact_mod_cast Nat.zero_le _

/-- Witness for C5 at a concrete input: one selected unit with an open job
card and an invalid certificate, target 0. -/
theorem C5_constraints_nonneg_witness :
    (1 : ℚ) ∈ evaluateG [true] [⟨"TS01", 5, true, false, 90, 3⟩] 0 ∧ (0 : ℚ) ≤ 1 :=
  have hmem : (1 : ℚ) ∈ evaluateG [true] [⟨"TS01", 5, true, false, 90, 3⟩] 0 := by
    simp [evaluateG, selMul, selCount]
  ⟨hmem, C5_constraints_nonneg [true] [⟨"TS01", 5, true, false, 90, 3⟩] 0 1 hmem⟩

/-- Claim C6: the 3-objective evaluator returns objective 3 equal to the
negated selected-branding sum, appended to the two v2 objectives; the
2-objective evaluator returns exactly those two objectives and nothing
else. -/
theorem C6_branding_objective (x : List Bool) (df : List FleetUnit) :
    evaluateF_v3 x df =
      evaluateF_v2 x df ++
        [-(selectedVals x (df.map (fun u => u.branding_priority_score))).sum] ∧
    (evaluateF_v2 x df).length = 2 := by
  refine ⟨evaluateF_v3_eq x df, ?_⟩
  rw [evaluateF_v2_eq]
  rfl

/-- Claim C8: evaluation is pure and idempotent: a call leaves the fleet
table unchanged, and evaluating the same candidate again on the table left
behind by the first call gives the same objective and constraint vectors,
in both variants. -/
theorem C8_evaluation_idempotent (x : List Bool) (df : List FleetUnit) :
    (evaluate_v2 x df).2 = df ∧
    evaluate_v2 x ((evaluate_v2 x df).2) = evaluate_v2 x df ∧
    (evaluate_v3 x df).2 = df ∧
    evaluate_v3 x ((evaluate_v3 x df).2) = evaluate_v3 x df :=
  ⟨rfl, rfl, rfl, rfl⟩

/-! ## Script-level flow: data loading, problem construction, result
extraction -/

/-- Python exceptions raised (or caught) by the scripts. -/
inductive PyError where
  | fileNotFoundError : PyError
  | typeError : PyError
deriving DecidableEq

/-- Outcome of the results section of a script: either an explicit
no-valid-solution report carrying no solutions, or a list of solution
reports. -/
inductive RunOutcome (α : Type) where
  | infeasible : RunOutcome α
  | results : List α → RunOutcome α

/-- Dimensions handed to `pymoo.Problem.__init__` by
`TrainSchedulingProblem.__init__` (v2 lines 67–70): `n_var = len(df)`,
`n_obj = 2`, `n_constr = 3`.  No emptiness or well-formedness check is
made on `df`. -/
structure ProblemDims where
  n_var : Nat
  n_obj : Nat
  n_constr : Nat
deriving DecidableEq

def TrainSchedulingProblem_init (df : List FleetUnit) : ProblemDims :=
  ⟨df.length, 2, 3⟩

/-- Script flow of v2, sections 1–3: the `try/except` around data loading
catches exactly `FileNotFoundError` (line 58) and exits; any successfully
built table — the empty one included — flows unchecked into
`TrainSchedulingProblem(train_df)` at line 90. -/
def runPipeline_v2 (loaded : Except PyError (List FleetUnit)) :
    Except PyError ProblemDims :=
  match loaded with
  | Except.error e => Except.error e
  | Except.ok df => Except.ok (TrainSchedulingProblem_init df)

/-- v2 results section, one solution (lines 124–130): cost is
`objectives[0]`, punctuality is `100 - objectives[1]`, and the selected
trains are the rows picked by the mask, sorted by mileage
(`sort_values(by='mileage')`). -/
def reportSolution_v2 (df : List FleetUnit) (mask : List Bool) (objRow : List ℚ) :
    ℚ × ℚ × List String :=
  let selected_trains :=
    (((df.zip mask).filter (fun p => p.2)).map (fun p => p.1)).mergeSort
      (fun a b => decide (a.mileage ≤ b.mileage))
  (objRow.getD 0 0, (100 - objRow.getD 1 0, selected_trains.map (fun u => u.trainsetId)))

/-- v2 results section (lines 119–130): `if res.X is None` prints the
explicit could-not-find-any-valid-solution message and reports nothing;
otherwise every optimal solution is reported. -/
def printResults_v2 (df : List FleetUnit) (resX : Option (List (List Bool)))
    (resF : List (List ℚ)) : RunOutcome (ℚ × ℚ × List String) :=
  match resX with
  | none => RunOutcome.infeasible
  | some xs => RunOutcome.results ((xs.zip resF).map (fun p => reportSolution_v2 df p.1 p.2))

/-- v3 line 118: `solution_mask = solution_float_mask > 0.5`. -/
def thresholdMask (solution_float_mask : List ℚ) : List Bool :=
  solution_float_mask.map (fun v => decide ((1 : ℚ) / 2 < v))

/-- v3 lines 121–124: `train_df[solution_mask]` keeps the masked rows in
table order and `['trainsetId'].tolist()` collects their identifiers. -/
def selectedIds (df : List FleetUnit) (mask : List Bool) : List String :=
  ((df.zip mask).filter (fun p => p.2)).map (fun p => p.1.trainsetId)

/-- One report of the v3 analysis loop: selected identifiers plus the
sign-corrected objective values. -/
structure FleetReport where
  selected_ids : List String
  mileage : ℚ
  punctuality : ℚ
  branding : ℚ
deriving DecidableEq

/-- v3 analysis loop body (lines 115–133): threshold the float mask at 0.5,
filter the table, collect `trainsetId`s, and report
`mileage = objectives[0]`, `punctuality = 100 - objectives[1]`,
`branding = -objectives[2]`. -/
def reportSolution_v3 (df : List FleetUnit) (solution_float_mask : List ℚ)
    (objRow : List ℚ) : FleetReport :=
  let solution_mask := thresholdMask solution_float_mask
  ⟨selectedIds df solution_mask,
   objRow.getD 0 0, 100 - objRow.getD 1 0, -(objRow.getD 2 0)⟩

/-- v3 results section (lines 106–133): the loop iterates directly over
`res.X` with no `None` check; when no feasible solution exists (`res.X` is
`None`) the iteration itself raises `TypeError`.  Otherwise every
solution is reported via `reportSolution_v3`. -/
def analyzeResults_v3 (df : List FleetUnit) (resX : Option (List (List ℚ)))
    (resF : List (List ℚ)) : Except PyError (RunOutcome FleetReport) :=
  match resX with
  | none => Except.error PyError.typeError
  | some sols =>
      Except.ok (RunOutcome.results
        ((sols.zip resF).map (fun p => reportSolution_v3 df p.1 p.2)))

/-! ### Spec-side formulations for the extraction step -/

/-- Spec wording (§4.6/§9): the identifiers of the units whose solution
value exceeds one half, in table order. -/
def selectedIdsSpec (df : List FleetUnit) (solution_float_mask : List ℚ) : List String :=
  (df.zip solution_float_mask).filterMap
    (fun p => if (1 : ℚ) / 2 < p.2 then some p.1.trainsetId else none)

/-- Spec wording (§9): an already-discrete solution vector holding 1 for
selected and 0 for unselected. -/
def bitsToFloats (mask : List Bool) : List ℚ :=
  mask.map (fun b => if b then 1 else 0)

/-! ## Lemmas about the extraction step -/

/-- Thresholding then filtering agrees with the spec-side filterMap. -/
theorem selectedIds_thresholdMask (df : List FleetUnit) (fm : List ℚ) :
    selectedIds df (thresholdMask fm) = selectedIdsSpec df fm := by
  induction df generalizing fm with
  | nil => simp [selectedIds, selectedIdsSpec]
  | cons u us ih =>
    cases fm with
    | nil => simp [selectedIds, selectedIdsSpec, thresholdMask]
    | cons q qs =>
      have ih2 := ih qs
      by_cases h : (1 : ℚ) / 2 < q <;>
        simp_all [selectedIds, selectedIdsSpec, thresholdMask, List.zip, h]

/-- Re-thresholding an already-discrete 0/1 vector recovers the mask. -/
theorem thresholdMask_bitsToFloats (mask : List Bool) :
    thresholdMask (bitsToFloats mask) = mask := by
  have h1 : (1 : ℚ) / 2 < 1 := by norm_num
  have h0 : ¬((1 : ℚ) / 2 < 0) := by norm_num
  induction mask with
  | nil => rfl
  | cons b bs ih =>
    cases b <;> simp_all [thresholdMask, bitsToFloats, h1, h0]

/-! ## Claim theorems, continued -/

/-- Claim C3, counterexample: in the 3-objective variant, when no feasible
solution exists (`res.X` is `None`) the analysis loop raises a `TypeError`
instead of returning an empty result with an explicit infeasible
indication. -/
theorem C3_counterexample :
    analyzeResults_v3 [] none [] = Except.error PyError.typeError := rfl

/-- Claim C3, amended: when no feasible individual exists after the final
generation, the 2-objective variant reports the explicit
could-not-find-any-valid-solution indication with no solutions, while the
3-objective variant fails with a `TypeError`; neither variant silently
substitutes a best-effort infeasible answer. -/
theorem C3_infeasible_reporting (df : List FleetUnit) (resF : List (List ℚ)) :
    printResults_v2 df none resF = RunOutcome.infeasible ∧
    analyzeResults_v3 df none resF = Except.error PyError.typeError :=
  ⟨rfl, rfl⟩

/-- Claim C4, counterexample: an empty (but present) FleetUnit table is not
rejected — the pipeline succeeds and constructs the optimization problem
with `n_var = 0`. -/
theorem C4_counterexample :
    runPipeline_v2 (Except.ok []) = Except.ok ⟨0, 2, 3⟩ := rfl

/-- Claim C4, amended: the v2 script fails fast only when loading raises
(the `FileNotFoundError` handler prints an error and exits); any
successfully loaded table, the empty one included, is passed to
`TrainSchedulingProblem.__init__`, which performs no validation and sets
`n_var = len(df)` — so an empty table starts the engine with `n_var = 0`. -/
theorem C4_fail_fast_amended :
    (∀ e : PyError, runPipeline_v2 (Except.error e) = Except.error e) ∧
    (∀ df : List FleetUnit,
      runPipeline_v2 (Except.ok df) = Except.ok (TrainSchedulingProblem_init df)) ∧
    (TrainSchedulingProblem_init []).n_var = 0 :=
  ⟨fun _ => rfl, fun _ => rfl, rfl⟩

/-- Claim C7: the v3 extraction maps a solution vector to exactly the
identifiers of the units whose value passes the 0.5 threshold, in table
order, and reports punctuality as `100 -` the stored objective 2 and
branding as the negation of the stored objective 3; the v2 extraction also
reports punctuality as `100 -` the stored objective 2 and reports a
permutation (sorted by mileage) of the selected identifiers. -/
theorem C7_result_extraction (df : List FleetUnit) (mask : List Bool)
    (fm objRow : List ℚ) :
    (reportSolution_v3 df fm objRow).selected_ids = selectedIdsSpec df fm ∧
    (reportSolution_v3 df fm objRow).punctuality = 100 - objRow.getD 1 0 ∧
    (reportSolution_v3 df fm objRow).branding = -(objRow.getD 2 0) ∧
    (reportSolution_v2 df mask objRow).2.1 = 100 - objRow.getD 1 0 ∧
    ((reportSolution_v2 df mask objRow).2.2).Perm (selectedIds df mask) := by
  refine ⟨?_, rfl, rfl, rfl, ?_⟩
  · simpa [reportSolution_v3] using selectedIds_thresholdMask df fm
  · have hperm :=
      (List.mergeSort_perm (((df.zip mask).filter (fun p => p.2)).map (fun p => p.1))
        (fun a b => decide (a.mileage ≤ b.mileage))).map
        (fun u : FleetUnit => u.trainsetId)
    simpa [reportSolution_v2, selectedIds, List.map_map, Function.comp] using hperm

/-- Claim C9: in the 3-objective variant a unit at position `i` is selected
by the reported mask iff its solution-vector value strictly exceeds 0.5,
and the report depends on the solution vector only through that thresholded
mask (replacing the vector by its thresholded 0/1 version changes
nothing). -/
theorem C9_threshold_selection :
    (∀ (fm : List ℚ) (i : Nat),
      (thresholdMask fm).getD i false = true ↔ (1 : ℚ) / 2 < fm.getD i 0) ∧
    (∀ (df : List FleetUnit) (fm objRow : List ℚ),
      (reportSolution_v3 df fm objRow).selected_ids =
        selectedIds df (thresholdMask fm) ∧
      reportSolution_v3 df (bitsToFloats (thresholdMask fm)) objRow =
        reportSolution_v3 df fm objRow) := by
  constructor
  · intro fm i
    induction fm generalizing i with
    | nil =>
      simp [thresholdMask]
    | cons q qs ih =>
      cases i with
      | zero => simp [thresholdMask]
      | succ n => simpa [thresholdMask] using ih n
  · intro df fm objRow
    exact ⟨rfl, by simp [reportSolution_v3, thresholdMask_bitsToFloats]⟩

/-! ## Punctuality-score derivation (data-processing step) -/

/-- `train_df['mileage'].min()` over the mileage column (0 for an empty
column, which the derivation never uses on any row since there are none). -/
def colMin : List ℚ → ℚ
  | [] => 0
  | x :: xs => List.foldl min x xs

/-- `train_df['mileage'].max()` over the mileage column. -/
def colMax : List ℚ → ℚ
  | [] => 0
  | x :: xs => List.foldl max x xs

/-- pandas `.round(2)`: rounding to two decimal places, modelled on exact
rationals as the floor of `100·q + 1/2` scaled back down. -/
def round2 (q : ℚ) : ℚ :=
  ((⌊q * 100 + 1 / 2⌋ : ℤ) : ℚ) / 100

/-- v2 lines 47–51 (identically v3 lines 47–50): the derived
`punctuality_score` of a row with mileage `m`, given the mileage column
`ms`: `mileage_norm = (m - min) / (max - min)` and
`punctuality_score = round(100 - mileage_norm * 5, 2)`. -/
def punctuality_score_of (ms : List ℚ) (m : ℚ) : ℚ :=
  round2 (100 - (m - colMin ms) / (colMax ms - colMin ms) * 5)

theorem foldl_min_le_init (xs : List ℚ) (a : ℚ) : List.foldl min a xs ≤ a := by
  induction xs generalizing a with
  | nil => exact le_refl a
  | cons x xs ih => exact le_trans (ih (min a x)) (min_le_left a x)

theorem foldl_min_le_mem (xs : List ℚ) (a m : ℚ) (hm : m ∈ xs) :
    List.foldl min a xs ≤ m := by
  induction xs generalizing a with
  | nil => cases hm
  | cons x xs ih =>
    rcases List.mem_cons.mp hm with h | h
    · rw [h]
      exact le_trans (foldl_min_le_init xs (min a x)) (min_le_right a x)
    · exact ih (min a x) h

theorem init_le_foldl_max (xs : List ℚ) (a : ℚ) : a ≤ List.foldl max a xs := by
  induction xs generalizing a with
  | nil => exact le_refl a
  | cons x xs ih => exact le_trans (le_max_left a x) (ih (max a x))

theorem mem_le_foldl_max (xs : List ℚ) (a m : ℚ) (hm : m ∈ xs) :
    m ≤ List.foldl max a xs := by
  induction xs generalizing a with
  | nil => cases hm
  | cons x xs ih =>
    rcases List.mem_cons.mp hm with h | h
    · rw [h]
      exact le_trans (le_max_right a x) (init_le_foldl_max xs (max a x))
    · exact ih (max a x) h

/-- The column minimum bounds every column entry from below. -/
theorem colMin_le (ms : List ℚ) (m : ℚ) (hm : m ∈ ms) : colMin ms ≤ m := by
  cases ms with
  | nil => cases hm
  | cons x xs =>
    rcases List.mem_cons.mp hm with h | h
    · rw [h]
      exact foldl_min_le_init xs x
    · exact foldl_min_le_mem xs x m h

/-- The column maximum bounds every column entry from above. -/
theorem le_colMax (ms : List ℚ) (m : ℚ) (hm : m ∈ ms) : m ≤ colMax ms := by
  cases ms with
  | nil => cases hm
  | cons x xs =>
    rcases List.mem_cons.mp hm with h | h
    · rw [h]
      exact init_le_foldl_max xs x
    · exact mem_le_foldl_max xs x m h

/-- Two-decimal rounding keeps a value of `[95, 100]` inside `[95, 100]`. -/
theorem round2_bounds (v : ℚ) (h95 : 95 ≤ v) (h100 : v ≤ 100) :
    95 ≤ round2 v ∧ round2 v ≤ 100 := by
  unfold round2
  constructor
  · rw [le_div_iff₀ (by norm_num : (0 : ℚ) < 100)]
    have h : (9500 : ℤ) ≤ ⌊v * 100 + 1 / 2⌋ := by
      apply Int.le_floor.mpr
      push_cast
      linarith
    have hq : (9500 : ℚ) ≤ ((⌊v * 100 + 1 / 2⌋ : ℤ) : ℚ) := by exact_mod_cast h
    linarith
  · rw [div_le_iff₀ (by norm_num : (0 : ℚ) < 100)]
    have h : ⌊v * 100 + 1 / 2⌋ < (10001 : ℤ) := by
      apply Int.floor_lt.mpr
      push_cast
      linarith
    have h2 : ⌊v * 100 + 1 / 2⌋ ≤ (10000 : ℤ) := by omega
    have hq : ((⌊v * 100 + 1 / 2⌋ : ℤ) : ℚ) ≤ 10000 := by exact_mod_cast h2
    linarith

/-- Claim C10: whenever the mileage column's maximum strictly exceeds its
minimum, the derived `punctuality_score` of every unit lies in `[95, 100]`:
the min-max normalized mileage lies in `[0, 1]`, so `100 - 5·norm` lies in
`[95, 100]`, and two-decimal rounding stays inside that interval. -/
theorem C10_punctuality_range (ms : List ℚ) (m : ℚ) (hm : m ∈ ms)
    (hlt : colMin ms < colMax ms) :
    95 ≤ punctuality_score_of ms m ∧ punctuality_score_of ms m ≤ 100 := by
  have hmin := colMin_le ms m hm
  have hmax := le_colMax ms m hm
  have hdpos : 0 < colMax ms - colMin ms := by linarith
  have hnorm0 : 0 ≤ (m - colMin ms) / (colMax ms - colMin ms) :=
    div_nonneg (by linarith) (le_of_lt hdpos)
  have hnorm1 : (m - colMin ms) / (colMax ms - colMin ms) ≤ 1 := by
    rw [div_le_one hdpos]
    linarith
  unfold punctuality_score_of
  exact round2_bounds _ (by linarith) (by linarith)

/-- Witness for C10 on the concrete column `[0, 100]` at the row with
mileage 0. -/
theorem C10_punctuality_range_witness :
    (0 : ℚ) ∈ [(0 : ℚ), 100] ∧
    colMin [(0 : ℚ), 100] < colMax [(0 : ℚ), 100] ∧
    (95 ≤ punctuality_score_of [(0 : ℚ), 100] 0 ∧
     punctuality_score_of [(0 : ℚ), 100] 0 ≤ 100) :=
  ⟨by simp, by norm_num [colMin, colMax],
   C10_punctuality_range [(0 : ℚ), 100] 0 (by simp) (by norm_num [colMin, colMax])⟩
